import Mathlib

/-
  Verification development for the scanner session orchestration subsystem
  (electron-app/scanner.cjs) of the ARCAI repository.

  JavaScript strings are modelled as lists of characters (JStr).  Each string
  operation used by scanner.cjs (trim, split, join, toLowerCase, startsWith,
  endsWith, includes, the default Array.sort comparison, the || fallback on
  strings, and the two regular expressions appearing in the file) is given an
  executable Lean counterpart below, translated from the JavaScript semantics.
-/

abbrev JStr := List Char

/-- Coerce a Lean string literal to the JStr model. -/
def str (s : String) : JStr := s.data

/-- JavaScript toLowerCase restricted to the ASCII names handled here. -/
def jsToLower (s : JStr) : JStr := s.map Char.toLower

/-- Whitespace recognised by the trim model (ASCII whitespace). -/
def isSpaceChar (c : Char) : Bool :=
  c = ' ' || c = '\t' || c = '\r' || c = '\n'

/-- JavaScript String.prototype.trim (both ends). -/
def jsTrim (s : JStr) : JStr :=
  ((s.dropWhile isSpaceChar).reverse.dropWhile isSpaceChar).reverse

/-- JavaScript s.startsWith(p): p is a leading run of s. -/
def strStartsWith (s p : JStr) : Bool :=
  match p with
  | [] => true
  | a :: ps =>
    match s with
    | [] => false
    | b :: cs => a = b && strStartsWith cs ps

/-- JavaScript s.endsWith(p). -/
def strEndsWith (s p : JStr) : Bool :=
  strStartsWith s.reverse p.reverse

/-- JavaScript s.includes(sub): sub occurs contiguously inside s. -/
def strIncludes (s sub : JStr) : Bool :=
  match s with
  | [] => strStartsWith [] sub
  | c :: cs => strStartsWith (c :: cs) sub || strIncludes cs sub

/-- JavaScript s.split(sep) for a one-character separator: always returns at
least one piece, and an empty string yields one empty piece. -/
def jsSplit (sep : Char) : JStr → List JStr
  | [] => [[]]
  | c :: cs =>
    if c = sep then [] :: jsSplit sep cs
    else
      match jsSplit sep cs with
      | [] => [[c]]
      | p :: ps => (c :: p) :: ps

/-- JavaScript parts.join(sep) for a one-character separator. -/
def jsJoin (sep : Char) : List JStr → JStr
  | [] => []
  | [x] => x
  | x :: y :: ys => x ++ sep :: jsJoin sep (y :: ys)

/-- JavaScript a || b on strings: the empty string is falsy. -/
def jsOr (a b : JStr) : JStr := if a = [] then b else a

/-- The UTF-16 code-unit comparison used by the default Array.sort, on one
character (all names involved are in the basic plane, where code unit and
code point agree). -/
def lexLe : JStr → JStr → Bool
  | [], _ => true
  | _ :: _, [] => false
  | a :: as, b :: bs =>
    if a.toNat < b.toNat then true
    else if b.toNat < a.toNat then false
    else lexLe as bs

/-- Insertion step of the sorting model for the default Array.sort. -/
def insertLex (x : JStr) : List JStr → List JStr
  | [] => [x]
  | y :: ys => if lexLe x y then x :: y :: ys else y :: insertLex x ys

/-- Sorting model for the default (lexicographic, stable) Array.sort used at
scanner.cjs line 247 on the matched temp-file paths. -/
def sortLex : List JStr → List JStr
  | [] => []
  | x :: xs => insertLex x (sortLex xs)

/-- Word character of the JavaScript regex class. -/
def isWordChar (c : Char) : Bool := c.isAlphanum || c = '_'

/-- Recognise a leading run of word characters that reaches a digit. -/
def modelDigitsTail : JStr → Bool
  | [] => false
  | c :: cs =>
    if c.isDigit then true
    else if isWordChar c then modelDigitsTail cs
    else false

/-- After a run of word characters inside the model-number regex, look for a
digit, allowing one hyphen before the trailing word-character run. -/
def modelAfterWord : JStr → Bool
  | [] => false
  | c :: cs =>
    if c.isDigit then true
    else if c = '-' then modelDigitsTail cs
    else if isWordChar c then modelAfterWord cs
    else false

/-- Unanchored search for the scanner.cjs line 144 model-number regex: one or
more word characters, an optional hyphen, further word characters, then at
least one digit. -/
def hasModelNumber : JStr → Bool
  | [] => false
  | c :: cs => (isWordChar c && modelAfterWord cs) || hasModelNumber cs

/-- Any decimal digit occurs: the digit-search regex at scanner.cjs line 92. -/
def hasDigit (s : JStr) : Bool := s.any Char.isDigit

/-
  Device Enumerator and Scanner Lister (scanner.cjs lines 42-165).
-/

/-- Result of one execNaps2 / exec invocation as seen by the callbacks: an
error flag and the captured standard streams. -/
structure ExecResult where
  error : Bool
  stdout : JStr
  stderr : JStr

/-- Translation of getConnectedDevices (scanner.cjs lines 42-60).  The exec
callback binds err but never reads it, and always resolves the parsed stdout:
split on runs of carriage returns and newlines, trim each piece and keep the
non-empty ones.  Splitting on every single such character and then filtering
empties is equivalent to splitting on runs, because the filter removes the
empty pieces a run produces.  Note the resolved value is always a list, never
a null, even when err is set. -/
def getConnectedDevices (probeErr : Bool) (stdout : JStr) : List JStr :=
  (((jsSplit '\r' stdout).map (jsSplit '\n')).flatten.map jsTrim).filter
    (fun s => s.length ≠ 0)

/-- Translation of the isConnected filter (scanner.cjs lines 72-100).  The
source begins with a check that the connected-device value is falsy, but
getConnectedDevices always resolves an array and arrays (even empty ones) are
truthy in JavaScript, so that branch is unreachable and is omitted here. -/
def isConnected (connectedDevices : List JStr) (naps2Name : JStr) : Bool :=
  if connectedDevices.length = 0 then false
  else
    let nameLower := jsToLower naps2Name
    let strictMatch := connectedDevices.any (fun connected =>
      let connectedLower := jsToLower connected
      strIncludes nameLower connectedLower || strIncludes connectedLower nameLower)
    if strictMatch then true
    else if strIncludes nameLower (str "scanner") && !hasDigit nameLower then
      let manufacturer := (jsSplit ' ' nameLower).headI
      connectedDevices.any (fun d => strIncludes (jsToLower d) manufacturer)
    else false

/-- A scanner entry pushed by getScanners: a transport-prefixed id and the
reported device name. -/
structure Scanner where
  id : JStr
  name : JStr
deriving DecidableEq

/-- Candidate names one listdevices invocation contributes: split the tool
output on newlines, trim, and keep lines that are non-empty, do not carry the
Error marker, and pass the connectivity filter (scanner.cjs lines 108-111 and
127-130). -/
def keptNames (connected : List JStr) (stdout : JStr) : List JStr :=
  ((jsSplit '\n' stdout).map jsTrim).filter (fun name =>
    name ≠ [] && !strStartsWith name (str "Error") && isConnected connected name)

/-- The alreadyExists duplicate test of the WIA pass (scanner.cjs lines
137-149): an exact case-normalized match, or a same-manufacturer entry that
carries a model number while the candidate is the generic manufacturer-Scanner
form. -/
def alreadyExists (scanners : List Scanner) (baseNameLower manufacturer : JStr) : Bool :=
  scanners.any (fun s =>
    jsToLower s.name = baseNameLower ||
      (strStartsWith (jsToLower s.name) manufacturer &&
        (hasModelNumber (jsToLower s.name) && baseNameLower = manufacturer ++ str " scanner")))

/-- One step of the WIA pass (scanner.cjs lines 131-156): skip the candidate
when alreadyExists, otherwise push a wia-prefixed entry. -/
def wiaAdd (scanners : List Scanner) (name : JStr) : List Scanner :=
  let baseNameLower := jsToLower name
  let manufacturer := (jsSplit ' ' baseNameLower).headI
  if alreadyExists scanners baseNameLower manufacturer then scanners
  else scanners ++ [⟨str "wia:" ++ name, name⟩]

/-- Translation of getScanners (scanner.cjs lines 62-165).  The external
behaviour is supplied as inputs: whether the tool executable exists, the
outcome of the device probe, and the outcomes of the two listdevices runs.
The TWAIN pass pushes every kept name unconditionally; the WIA pass runs the
alreadyExists dedup against the list built so far. -/
def getScanners (naps2Exists : Bool) (probeErr : Bool) (probeOut : JStr)
    (twain wia : ExecResult) : List Scanner :=
  if !naps2Exists then []
  else
    let connected := getConnectedDevices probeErr probeOut
    let afterTwain :=
      if twain.error then []
      else (keptNames connected twain.stdout).map (fun n => ⟨str "twain:" ++ n, n⟩)
    if wia.error then afterTwain
    else (keptNames connected wia.stdout).foldl wiaAdd afterTwain

/-
  Popup Suppressor (scanner.cjs lines 182-201).

  monitorPopup installs a fixed-period setInterval with a 50 millisecond
  period; every tick immediately spawns a dismissal helper process with exec
  and does not wait for it.  The timeline model below places tick k of the
  interval at (k+1) * 50 milliseconds after installation; a dismissal process
  spawned at time s whose OS call takes dur milliseconds is in flight during
  [s, s + dur).
-/

/-- The interval period hard-coded at scanner.cjs line 196. -/
def popupTickPeriod : Nat := 50

/-- Spawn instants of the dismissal helper processes during the first ticks
of an active monitorPopup interval. -/
def suppressorSpawnTimes (ticks : Nat) : List Nat :=
  (List.range ticks).map (fun k => (k + 1) * popupTickPeriod)

/-- Number of dismissal helper processes in flight at time t, when every
dismissal OS call takes dur milliseconds. -/
def inFlightDismissals (dur ticks t : Nat) : Nat :=
  ((suppressorSpawnTimes ticks).filter (fun s => s ≤ t && t < s + dur)).length

/-
  Process Registry and Cleanup Coordinator (scanner.cjs lines 11-13 and
  316-337).

  The process-wide mutable state of scanner.cjs consists of exactly two sets:
  activeProcesses and activeIntervals.  The specification additionally posits
  a process-wide boolean CancellationFlag; no variable of that kind exists
  anywhere in scanner.cjs, so the state below carries it as a ghost field that
  the translated code can be seen never to read or write.
-/

/-- Process-wide registry state.  Handles are abstracted as numbers.  The
cancellationFlag field is the ghost counterpart of the CancellationFlag the
specification describes; scanner.cjs declares no such variable. -/
structure RegistryState where
  activeProcesses : List Nat
  activeIntervals : List Nat
  cancellationFlag : Bool
deriving DecidableEq

/-- Translation of cleanup (scanner.cjs lines 316-337): clear every interval
and empty activeIntervals, send SIGTERM to every registered process and empty
activeProcesses, then run the external taskkill sweep (cleanupProcesses),
which touches no registry state.  No assignment to any cancellation variable
appears in the source, so the ghost flag is left unchanged. -/
def cleanup (s : RegistryState) : RegistryState :=
  { activeProcesses := [], activeIntervals := [], cancellationFlag := s.cancellationFlag }

/-
  Scan Session Executor and Scan Strategy Controller (scanner.cjs lines
  203-313).
-/

/-- Environment of one executeScanSession attempt: the streams the tool
produced, the temp directory and its listing after the tool ran, the unique
session file marker (timestamp plus random suffix, generated at line 227),
and the outcome of reading each file (none models a readFileSync throw, whose
catch at lines 263-265 merely logs and skips the file). -/
structure SessionEnv where
  stdout : JStr
  stderr : JStr
  tempDir : JStr
  filePfx : JStr
  listing : List JStr
  readFile : JStr → Option JStr

/-- Windows path.join of the temp directory and a file name (line 246). -/
def pathJoin (dir file : JStr) : JStr := dir ++ '\\' :: file

/-- The files a session attempt matches (scanner.cjs lines 244-246): listing
entries that start with the session marker and end in .jpg, mapped to full
paths.  filePfx models the filePrefix variable of the source. -/
def matchedFiles (env : SessionEnv) : List JStr :=
  (env.listing.filter (fun f =>
    strStartsWith f env.filePfx && strEndsWith f (str ".jpg"))).map
    (pathJoin env.tempDir)

/-- Translation of executeScanSession (scanner.cjs lines 225-275).  The
matched paths are sorted with the default Array.sort; with no match the
attempt throws the stderr-stdout-fallback diagnostic; otherwise each file is
read in order, a read failure being caught, logged and skipped, so the
returned page list is the filterMap of the reads.  The popup monitor started
for the attempt changes no data visible here and is always cleared in the
finally block. -/
def executeScanSession (env : SessionEnv) : Except JStr (List JStr) :=
  let files := sortLex (matchedFiles env)
  if files.length = 0 then
    Except.error (jsOr env.stderr (jsOr env.stdout (str "No images scanned")))
  else
    Except.ok (files.filterMap env.readFile)

/-- Parse of the scanner id (scanner.cjs lines 212-213): destructure the
split into the driver and the remaining parts, rejoined with colons. -/
def parseScannerId (scannerId : JStr) : JStr × JStr :=
  match jsSplit ':' scannerId with
  | [] => ([], [])
  | driver :: nameParts => (driver, jsJoin ':' nameParts)

/-- Resolution mapping (scanner.cjs lines 220-222). -/
def mapResolution (resolution : JStr) : Nat :=
  if resolution = str "high" then 300
  else if resolution = str "low" then 150
  else 200

/-- The attempt plan resolved by performScan (scanner.cjs lines 276-291). -/
structure Strategy where
  primarySource : JStr
  fallbackSource : Option JStr
  monitorPrimary : Bool
deriving DecidableEq

/-- Translation of the strategy determination (scanner.cjs lines 276-291):
the defaults are glass, no fallback, no monitor; auto selects duplex or
feeder with a glass fallback and the popup monitor on the primary attempt;
feeder selects duplex or feeder with no fallback; anything else stays on the
defaults. -/
def resolveStrategy (source : JStr) (doubleSided : Bool) : Strategy :=
  if source = str "auto" then
    ⟨if doubleSided then str "duplex" else str "feeder", some (str "glass"), true⟩
  else if source = str "feeder" then
    ⟨if doubleSided then str "duplex" else str "feeder", none, false⟩
  else
    ⟨str "glass", none, false⟩

/-- Environment of one performScan call: whether the tool executable exists,
the ghost cancellation flag (see RegistryState), and the session environments
the primary and fallback attempts would observe. -/
structure ScanEnv where
  naps2Exists : Bool
  cancellationFlag : Bool
  primarySession : SessionEnv
  fallbackSession : SessionEnv

/-- Outcome of performScan: the returned pages or thrown message, plus the
attempts actually spawned, each recorded as the source passed to
executeScanSession together with its enableMonitor argument. -/
structure PerformOutcome where
  result : Except JStr (List JStr)
  attempts : List (JStr × Bool)

/-- Attempt cascade of performScan (scanner.cjs lines 293-312): the primary
attempt runs with the strategy monitor flag.  On primary failure with a
fallback configured, cleanupProcesses runs again (no modelled state) and the
fallback attempt is spawned with the monitor disabled (line 303); if it also
fails the combined Auto-scan failed message is thrown.  With no fallback the
primary error is rethrown.  No cancellation variable is consulted anywhere. -/
def performScanExec (env : ScanEnv) (strat : Strategy) : PerformOutcome :=
  match executeScanSession env.primarySession with
  | Except.ok images => ⟨Except.ok images, [(strat.primarySource, strat.monitorPrimary)]⟩
  | Except.error primaryError =>
    match strat.fallbackSource with
    | some fb =>
      (match executeScanSession env.fallbackSession with
      | Except.ok images =>
        ⟨Except.ok images,
          [(strat.primarySource, strat.monitorPrimary), (fb, false)]⟩
      | Except.error fallbackError =>
        ⟨Except.error (str "Auto-scan failed. Feeder: " ++ primaryError ++
            str ". Flatbed: " ++ fallbackError),
          [(strat.primarySource, strat.monitorPrimary), (fb, false)]⟩)
    | none => ⟨Except.error primaryError, [(strat.primarySource, strat.monitorPrimary)]⟩

/-- Entry checks of performScan (scanner.cjs lines 203-217): after the
external cleanupProcesses sweep (no modelled state), a missing tool throws;
an id whose driver or rejoined device name is empty throws Invalid scanner ID
before any attempt; otherwise the dpi is mapped (it only feeds the command
string), the strategy is resolved, and the attempt cascade runs. -/
def performScan (env : ScanEnv) (scannerId resolution : JStr)
    (doubleSided : Bool) (source : JStr) : PerformOutcome :=
  if !env.naps2Exists then
    ⟨Except.error (str "Scanning engine (NAPS2) not found."), []⟩
  else if (parseScannerId scannerId).1 = [] || (parseScannerId scannerId).2 = [] then
    ⟨Except.error (str "Invalid scanner ID"), []⟩
  else
    performScanExec env (resolveStrategy source doubleSided)

/-
  Relations and concrete environments used by the theorems below.
-/

/-- Relation between an earlier and a later entry of the merged scanner list:
their case-normalized names differ, and a later WIA-pass entry is not the
generic manufacturer-Scanner form of a manufacturer for which the earlier
entry already carries a model number.  This is exactly what the alreadyExists
test of the WIA pass enforces against every entry pushed before it. -/
def mergedOk (a b : Scanner) : Prop :=
  jsToLower a.name ≠ jsToLower b.name ∧
    (strStartsWith b.id (str "wia:") = true →
      ¬(strStartsWith (jsToLower a.name) ((jsSplit ' ' (jsToLower b.name)).headI) = true ∧
        hasModelNumber (jsToLower a.name) = true ∧
        jsToLower b.name = (jsSplit ' ' (jsToLower b.name)).headI ++ str " scanner"))

/-- A session whose tool run produced no output files and no diagnostics. -/
def sessEmpty : SessionEnv :=
  ⟨str "", str "", str "T", str "p", [], fun _ => none⟩

/-- A session that produced two pages of which the first fails to read. -/
def sessPartial : SessionEnv :=
  ⟨str "", str "", str "T", str "p", [str "p2.jpg", str "p1.jpg"],
    fun f => if f = str "T\\p1.jpg" then none else some (str "B")⟩

/-- A session that produced two pages, listed out of order, all readable; a
file read yields the path itself as the page payload. -/
def sessOkTwo : SessionEnv :=
  ⟨str "", str "", str "T", str "p", [str "p2.jpg", str "p1.jpg"], fun f => some f⟩

/-- A scan environment whose ghost cancellation flag is set while both
attempts would find no output files. -/
def scanEnvCancelled : ScanEnv := ⟨true, true, sessEmpty, sessEmpty⟩

/-- A scan environment where the primary attempt fails and the fallback
attempt succeeds with two pages. -/
def scanEnvFallbackOk : ScanEnv := ⟨true, false, sessEmpty, sessOkTwo⟩

/-
  Helper lemmas.
-/

/-- The JavaScript split always yields at least one piece. -/
theorem jsSplit_ne_nil (sep : Char) (l : JStr) : jsSplit sep l ≠ [] := by
  cases l with
  | nil => simp [jsSplit]
  | cons c cs =>
    simp only [jsSplit]
    split
    · simp
    · split <;> simp

/-- Joining the pieces of a split restores the original string. -/
theorem jsJoin_jsSplit (sep : Char) (l : JStr) : jsJoin sep (jsSplit sep l) = l := by
  induction l with
  | nil => rfl
  | cons c cs ih =>
    by_cases h : c = sep
    · subst h
      obtain ⟨r1, rs, hr⟩ := List.exists_cons_of_ne_nil (jsSplit_ne_nil c cs)
      simp only [jsSplit, if_pos rfl]
      rw [hr]
      show ([] : JStr) ++ c :: jsJoin c (r1 :: rs) = c :: cs
      rw [List.nil_append, ← hr, ih]
    · simp only [jsSplit, if_neg h]
      obtain ⟨r1, rs, hr⟩ := List.exists_cons_of_ne_nil (jsSplit_ne_nil sep cs)
      rw [hr]
      cases rs with
      | nil =>
        have h1 : r1 = cs := by rw [hr] at ih; exact ih
        show c :: r1 = c :: cs
        rw [h1]
      | cons s ss =>
        have h1 : r1 ++ sep :: jsJoin sep (s :: ss) = cs := by rw [hr] at ih; exact ih
        show (c :: r1) ++ sep :: jsJoin sep (s :: ss) = c :: cs
        rw [List.cons_append, h1]

/-- Splitting a string whose head part is separator-free peels that part off. -/
theorem jsSplit_append (sep : Char) (d n : JStr) (hd : sep ∉ d) :
    jsSplit sep (d ++ sep :: n) = d :: jsSplit sep n := by
  induction d with
  | nil => simp [jsSplit]
  | cons c cs ih =>
    have hc : ¬(c = sep) := fun h => hd (by rw [h]; exact List.mem_cons_self sep cs)
    have ih2 := ih (fun h => hd (List.mem_cons_of_mem c h))
    simp only [List.cons_append, jsSplit, if_neg hc]
    rw [show cs.append (sep :: n) = cs ++ sep :: n from rfl, ih2]

/-- lexLe is reflexive. -/
theorem lexLe_refl (l : JStr) : lexLe l l = true := by
  induction l with
  | nil => rfl
  | cons c cs ih => simp [lexLe, Nat.lt_irrefl, ih]

/-- The head characters of lexLe-ordered non-empty strings are ordered. -/
theorem head_le_of_lexLe {a b : Char} {as bs : JStr}
    (h : lexLe (a :: as) (b :: bs) = true) : a.toNat ≤ b.toNat := by
  simp only [lexLe] at h
  by_cases h1 : a.toNat < b.toNat
  · omega
  · by_cases h2 : b.toNat < a.toNat
    · rw [if_neg h1, if_pos h2] at h
      exact absurd h (by simp)
    · omega

/-- lexLe is total. -/
theorem lexLe_total (a b : JStr) : lexLe a b = true ∨ lexLe b a = true := by
  induction a generalizing b with
  | nil => left; rfl
  | cons x xs ih =>
    cases b with
    | nil => right; rfl
    | cons y ys =>
      rcases Nat.lt_trichotomy x.toNat y.toNat with h | h | h
      · left; simp [lexLe, h]
      · have hxy : ¬x.toNat < y.toNat := by omega
        have hyx : ¬y.toNat < x.toNat := by omega
        rcases ih ys with h2 | h2
        · left; simp [lexLe, hxy, hyx, h2]
        · right; simp [lexLe, hxy, hyx, h2]
      · right; simp [lexLe, h]

/-- lexLe is transitive. -/
theorem lexLe_trans : ∀ {a b c : JStr},
    lexLe a b = true → lexLe b c = true → lexLe a c = true := by
  intro a
  induction a with
  | nil => intro b c _ _; rfl
  | cons x xs ih =>
    intro b c hab hbc
    cases b with
    | nil => simp [lexLe] at hab
    | cons y ys =>
      cases c with
      | nil => simp [lexLe] at hbc
      | cons z zs =>
        have hxy := head_le_of_lexLe hab
        have hyz := head_le_of_lexLe hbc
        by_cases h1 : x.toNat < z.toNat
        · simp [lexLe, h1]
        · have e1 : ¬x.toNat < y.toNat := by omega
          have e2 : ¬y.toNat < x.toNat := by omega
          have e3 : ¬y.toNat < z.toNat := by omega
          have e4 : ¬z.toNat < y.toNat := by omega
          have e5 : ¬z.toNat < x.toNat := by omega
          simp only [lexLe, if_neg e1, if_neg e2] at hab
          simp only [lexLe, if_neg e3, if_neg e4] at hbc
          simp only [lexLe, if_neg h1, if_neg e5]
          exact ih hab hbc

/-- Membership in the insertion step. -/
theorem mem_insertLex {a x : JStr} {l : List JStr} :
    a ∈ insertLex x l ↔ a = x ∨ a ∈ l := by
  induction l with
  | nil => simp [insertLex]
  | cons y ys ih =>
    simp only [insertLex]
    split
    · simp [List.mem_cons]
    · simp only [List.mem_cons, ih]
      tauto

/-- Inserting into a lexLe-sorted list keeps it sorted. -/
theorem pairwise_insertLex {x : JStr} {l : List JStr}
    (h : l.Pairwise (fun a b => lexLe a b = true)) :
    (insertLex x l).Pairwise (fun a b => lexLe a b = true) := by
  induction l with
  | nil => simp [insertLex]
  | cons y ys ih =>
    rw [List.pairwise_cons] at h
    obtain ⟨hy, hys⟩ := h
    simp only [insertLex]
    split
    case isTrue hxy =>
      refine List.Pairwise.cons ?_ (List.Pairwise.cons hy hys)
      intro b hb
      rcases List.mem_cons.mp hb with rfl | hb2
      · exact hxy
      · exact lexLe_trans hxy (hy b hb2)
    case isFalse hxy =>
      have hyx : lexLe y x = true := (lexLe_total x y).resolve_left hxy
      refine List.Pairwise.cons ?_ (ih hys)
      intro b hb
      rcases mem_insertLex.mp hb with rfl | hb2
      · exact hyx
      · exact hy b hb2

/-- The sorting model produces a lexLe-sorted list. -/
theorem sortLex_pairwise (l : List JStr) :
    (sortLex l).Pairwise (fun a b => lexLe a b = true) := by
  induction l with
  | nil => simp [sortLex]
  | cons x xs ih => exact pairwise_insertLex ih

/-- The insertion step is a permutation of pushing in front. -/
theorem insertLex_perm (x : JStr) (l : List JStr) :
    (insertLex x l).Perm (x :: l) := by
  induction l with
  | nil => exact List.Perm.refl _
  | cons y ys ih =>
    simp only [insertLex]
    split
    · exact List.Perm.refl _
    · exact (ih.cons y).trans (List.Perm.swap x y ys)

/-- The sorting model permutes its input. -/
theorem sortLex_perm (l : List JStr) : (sortLex l).Perm l := by
  induction l with
  | nil => exact List.Perm.refl _
  | cons x xs ih => exact (insertLex_perm x (sortLex xs)).trans (ih.cons x)

/-- filterMap keeps every element when the function succeeds everywhere. -/
theorem length_filterMap_of_isSome {f : JStr → Option JStr} :
    ∀ {l : List JStr}, (∀ a ∈ l, (f a).isSome = true) →
      (l.filterMap f).length = l.length := by
  intro l
  induction l with
  | nil => intro _; rfl
  | cons a as ih =>
    intro h
    obtain ⟨b, hb⟩ := Option.isSome_iff_exists.mp (h a (List.mem_cons_self a as))
    simp [List.filterMap_cons, hb, ih (fun x hx => h x (List.mem_cons_of_mem a hx))]

/-- With no connected devices every candidate is filtered out. -/
theorem keptNames_nil (s : JStr) : keptNames [] s = [] := by
  unfold keptNames
  apply List.filter_eq_nil_iff.mpr
  intro a _
  simp [isConnected]

/-- A TWAIN-prefixed id never carries the wia prefix. -/
theorem twainId_not_wia (n : JStr) :
    strStartsWith (str "twain:" ++ n) (str "wia:") = false := rfl

/-- A string extended on the right still carries its old leading runs. -/
theorem strStartsWith_of_append {p q : JStr} (s : JStr)
    (h : strStartsWith q p = true) : strStartsWith (q ++ s) p = true := by
  induction p generalizing q with
  | nil => simp [strStartsWith]
  | cons a ps ih =>
    cases q with
    | nil => simp [strStartsWith] at h
    | cons b cs =>
      simp only [List.cons_append, strStartsWith, Bool.and_eq_true] at h ⊢
      exact ⟨h.1, ih h.2⟩

/-- A string starts with itself, whatever follows. -/
theorem strStartsWith_append (p s : JStr) : strStartsWith (p ++ s) p = true := by
  induction p with
  | nil => simp [strStartsWith]
  | cons c cs ih => simp [strStartsWith, ih]

/-- A WIA-prefixed id carries the wia prefix. -/
theorem wiaId_wia (n : JStr) :
    strStartsWith (str "wia:" ++ n) (str "wia:") = true :=
  strStartsWith_append (str "wia:") n

/-- One WIA step preserves the pairwise dedup relation: the pushed entry was
checked by alreadyExists against every earlier entry. -/
theorem wiaAdd_pairwise {acc : List Scanner} {n : JStr}
    (h : acc.Pairwise mergedOk) : (wiaAdd acc n).Pairwise mergedOk := by
  have hshape : wiaAdd acc n =
      if alreadyExists acc (jsToLower n) ((jsSplit ' ' (jsToLower n)).headI) then acc
      else acc ++ [⟨str "wia:" ++ n, n⟩] := rfl
  rw [hshape]
  by_cases hex : alreadyExists acc (jsToLower n) ((jsSplit ' ' (jsToLower n)).headI) = true
  · simp only [hex, if_true]
    exact h
  · rw [Bool.not_eq_true] at hex
    simp only [hex, Bool.false_eq_true, if_false]
    rw [List.pairwise_append]
    refine ⟨h, List.pairwise_singleton _ _, ?_⟩
    intro a ha b hb
    rw [List.mem_singleton] at hb
    subst hb
    rw [Bool.eq_false_iff] at hex
    have hna : ¬(jsToLower a.name = jsToLower n ∨
        (strStartsWith (jsToLower a.name) ((jsSplit ' ' (jsToLower n)).headI) = true ∧
         (hasModelNumber (jsToLower a.name) = true ∧
          jsToLower n = (jsSplit ' ' (jsToLower n)).headI ++ str " scanner"))) := by
      intro hcon
      apply hex
      rw [alreadyExists, List.any_eq_true]
      refine ⟨a, ha, ?_⟩
      simp only [Bool.or_eq_true, Bool.and_eq_true, decide_eq_true_eq]
      exact hcon
    constructor
    · exact fun heq => hna (Or.inl heq)
    · intro _ hcontra
      obtain ⟨h1, h2, h3⟩ := hcontra
      exact hna (Or.inr ⟨h1, h2, h3⟩)

/-- Folding the WIA pass preserves the pairwise dedup relation. -/
theorem foldl_wiaAdd_pairwise (names : List JStr) :
    ∀ acc : List Scanner, acc.Pairwise mergedOk →
      (names.foldl wiaAdd acc).Pairwise mergedOk := by
  induction names with
  | nil => intro acc h; exact h
  | cons n ns ih => intro acc h; exact ih _ (wiaAdd_pairwise h)

/-- TWAIN-pass entries with pairwise distinct normalized names satisfy the
pairwise dedup relation. -/
theorem twain_entries_pairwise {connected : List JStr} {out : JStr}
    (h : (keptNames connected out).Pairwise (fun a b => jsToLower a ≠ jsToLower b)) :
    ((keptNames connected out).map
      (fun n => (⟨str "twain:" ++ n, n⟩ : Scanner))).Pairwise mergedOk := by
  rw [List.pairwise_map]
  refine h.imp ?_
  intro a b hab
  refine ⟨hab, fun hw => ?_⟩
  rw [twainId_not_wia b] at hw
  exact Bool.noConfusion hw

/-- With the tool present and a well-formed scanner id, performScan reduces
to the attempt cascade of scanner.cjs lines 294-312. -/
theorem performScan_eq_of_valid (env : ScanEnv) (id res : JStr) (d : Bool) (src : JStr)
    (hn : env.naps2Exists = true)
    (h1 : (parseScannerId id).1 ≠ []) (h2 : (parseScannerId id).2 ≠ []) :
    performScan env id res d src = performScanExec env (resolveStrategy src d) := by
  unfold performScan
  rw [hn]
  simp [h1, h2]


/-
  Claim theorems.
-/

/-- C1: performScan resolves the attempt plan exactly as specified: source
auto yields primary duplex when doubleSided and feeder otherwise, with glass
as fallback and the popup suppressor enabled only on the primary attempt;
source feeder yields primary duplex or feeder with no fallback and no
suppressor; source flatbed yields primary glass with no fallback and no
suppressor.  Moreover the attempts performScan actually spawns follow that
plan: the primary attempt carries the plan monitor flag and any fallback
attempt comes from the plan fallback source with the suppressor disabled. -/
theorem claim1_resolve_plan :
    (∀ d : Bool,
      resolveStrategy (str "auto") d =
        ⟨if d then str "duplex" else str "feeder", some (str "glass"), true⟩ ∧
      resolveStrategy (str "feeder") d =
        ⟨if d then str "duplex" else str "feeder", none, false⟩ ∧
      resolveStrategy (str "flatbed") d = ⟨str "glass", none, false⟩) ∧
    (∀ (env : ScanEnv) (id res : JStr) (d : Bool) (src : JStr),
      (performScan env id res d src).attempts = [] ∨
      (performScan env id res d src).attempts =
        [((resolveStrategy src d).primarySource, (resolveStrategy src d).monitorPrimary)] ∨
      ((performScan env id res d src).attempts =
        [((resolveStrategy src d).primarySource, (resolveStrategy src d).monitorPrimary),
         ((resolveStrategy src d).fallbackSource.getD [], false)] ∧
        (resolveStrategy src d).fallbackSource ≠ none)) := by
  constructor
  · intro d
    refine ⟨?_, ?_, ?_⟩ <;> cases d <;> decide
  · intro env id res d src
    unfold performScan
    split
    · left; rfl
    · split
      · left; rfl
      · unfold performScanExec
        split
        · right; left; rfl
        · split
          · rename_i heq
            split
            · right; right
              rw [heq]
              exact ⟨rfl, by simp⟩
            · right; right
              rw [heq]
              exact ⟨rfl, by simp⟩
          · right; left; rfl

/-- C2: performScan fails only if all attempts fail; when a fallback existed
and both attempts fail, the failure aggregates both messages; when the
fallback succeeds, its image buffers are returned and the primary failure
message is discarded (the outcome carries no message at all); and a primary
success returns immediately. -/
theorem claim2_failure_aggregation :
    ∀ (env : ScanEnv) (id res : JStr) (d : Bool) (src : JStr),
      env.naps2Exists = true →
      (parseScannerId id).1 ≠ [] →
      (parseScannerId id).2 ≠ [] →
      (∀ imgs, executeScanSession env.primarySession = Except.ok imgs →
        performScan env id res d src =
          ⟨Except.ok imgs,
           [((resolveStrategy src d).primarySource,
             (resolveStrategy src d).monitorPrimary)]⟩) ∧
      (∀ e1 fb imgs, executeScanSession env.primarySession = Except.error e1 →
        (resolveStrategy src d).fallbackSource = some fb →
        executeScanSession env.fallbackSession = Except.ok imgs →
        performScan env id res d src =
          ⟨Except.ok imgs,
           [((resolveStrategy src d).primarySource,
             (resolveStrategy src d).monitorPrimary), (fb, false)]⟩) ∧
      (∀ e1 fb e2, executeScanSession env.primarySession = Except.error e1 →
        (resolveStrategy src d).fallbackSource = some fb →
        executeScanSession env.fallbackSession = Except.error e2 →
        (performScan env id res d src).result =
          Except.error (str "Auto-scan failed. Feeder: " ++ e1 ++
            str ". Flatbed: " ++ e2)) ∧
      (∀ e1, executeScanSession env.primarySession = Except.error e1 →
        (resolveStrategy src d).fallbackSource = none →
        performScan env id res d src =
          ⟨Except.error e1,
           [((resolveStrategy src d).primarySource,
             (resolveStrategy src d).monitorPrimary)]⟩) := by
  intro env id res d src hn h1 h2
  refine ⟨?_, ?_, ?_, ?_⟩
  · intro imgs hok
    rw [performScan_eq_of_valid env id res d src hn h1 h2]
    unfold performScanExec
    rw [hok]
  · intro e1 fb imgs he1 hfb hok
    rw [performScan_eq_of_valid env id res d src hn h1 h2]
    unfold performScanExec
    rw [he1, hfb, hok]
  · intro e1 fb e2 he1 hfb he2
    rw [performScan_eq_of_valid env id res d src hn h1 h2]
    unfold performScanExec
    rw [he1, hfb, he2]
  · intro e1 he1 hfb
    rw [performScan_eq_of_valid env id res d src hn h1 h2]
    unfold performScanExec
    rw [he1, hfb]

/-- C2 witness: in the concrete environment where the primary attempt finds
no files and the fallback attempt produces two readable pages, performScan
returns the fallback pages and records both attempts. -/
theorem claim2_witness :
    scanEnvFallbackOk.naps2Exists = true ∧
    (parseScannerId (str "t:E")).1 ≠ [] ∧
    (parseScannerId (str "t:E")).2 ≠ [] ∧
    performScan scanEnvFallbackOk (str "t:E") (str "mid") false (str "auto") =
      ⟨Except.ok [str "T\\p1.jpg", str "T\\p2.jpg"],
       [(str "feeder", true), (str "glass", false)]⟩ :=
  ⟨rfl, by decide, by decide,
    (claim2_failure_aggregation scanEnvFallbackOk (str "t:E") (str "mid") false (str "auto")
        rfl (by decide) (by decide)).2.1
      (str "No images scanned") (str "glass") [str "T\\p1.jpg", str "T\\p2.jpg"]
      rfl rfl rfl⟩

/-- C3 counterexample: with the ghost CancellationFlag set before the
fallback attempt begins (indeed before the whole call), performScan still
spawns the fallback attempt and fails with the aggregated message, not with a
Scan cancelled failure: scanner.cjs consults no cancellation flag and
contains no Scan cancelled failure kind, so the claimed short-circuit does
not exist. -/
theorem claim3_counterexample :
    scanEnvCancelled.cancellationFlag = true ∧
    (performScan scanEnvCancelled (str "t:E") (str "mid") false (str "auto")).attempts =
      [(str "feeder", true), (str "glass", false)] ∧
    (performScan scanEnvCancelled (str "t:E") (str "mid") false (str "auto")).result ≠
      Except.error (str "Scan cancelled") := by
  refine ⟨rfl, by decide, ?_⟩
  have hres : (performScan scanEnvCancelled (str "t:E") (str "mid") false (str "auto")).result =
      Except.error (str "Auto-scan failed. Feeder: No images scanned. Flatbed: No images scanned") := rfl
  rw [hres]
  intro h
  injection h with h2
  exact absurd h2 (by decide)

/-- C3 amended: performScan consults no cancellation flag at all — its
outcome is identical whatever the value of the ghost flag; whenever the
primary attempt fails and the plan has a fallback, the fallback attempt is
spawned, and any resulting failure is the aggregated Auto-scan failed
message, never a distinct Scan cancelled failure. -/
theorem claim3_no_cancellation_check :
    ∀ (env : ScanEnv) (flag : Bool) (id res : JStr) (d : Bool) (src : JStr),
      (performScan { env with cancellationFlag := flag } id res d src =
        performScan env id res d src) ∧
      (∀ e1 fb, env.naps2Exists = true →
        (parseScannerId id).1 ≠ [] →
        (parseScannerId id).2 ≠ [] →
        executeScanSession env.primarySession = Except.error e1 →
        (resolveStrategy src d).fallbackSource = some fb →
        ((performScan env id res d src).attempts =
          [((resolveStrategy src d).primarySource,
            (resolveStrategy src d).monitorPrimary), (fb, false)] ∧
         ∀ e, (performScan env id res d src).result = Except.error e →
           strStartsWith e (str "Auto-scan failed.") = true)) := by
  intro env flag id res d src
  constructor
  · rfl
  · intro e1 fb hn h1 h2 he1 hfb
    rw [performScan_eq_of_valid env id res d src hn h1 h2]
    unfold performScanExec
    rw [he1, hfb]
    cases hf : executeScanSession env.fallbackSession with
    | ok imgs =>
      refine ⟨rfl, ?_⟩
      intro e he
      exact absurd he (by simp)
    | error e2 =>
      refine ⟨rfl, ?_⟩
      intro e he
      have he2 : e = str "Auto-scan failed. Feeder: " ++ e1 ++
          str ". Flatbed: " ++ e2 := by
        injection he.symm
      rw [he2]
      exact strStartsWith_of_append _
        (strStartsWith_of_append _ (strStartsWith_of_append _ (by decide)))

/-- C3 amended witness: the flag-independence and the spawned fallback, at
the concrete environment whose primary attempt fails and whose fallback
attempt succeeds. -/
theorem claim3_witness :
    (performScan { scanEnvFallbackOk with cancellationFlag := true }
        (str "t:E") (str "mid") false (str "auto") =
      performScan scanEnvFallbackOk (str "t:E") (str "mid") false (str "auto")) ∧
    (performScan scanEnvFallbackOk (str "t:E") (str "mid") false (str "auto")).attempts =
      [(str "feeder", true), (str "glass", false)] :=
  ⟨(claim3_no_cancellation_check scanEnvFallbackOk true (str "t:E") (str "mid") false
      (str "auto")).1,
   ((claim3_no_cancellation_check scanEnvFallbackOk true (str "t:E") (str "mid") false
      (str "auto")).2 (str "No images scanned") (str "glass")
      rfl (by decide) (by decide) rfl rfl).1⟩

/-- C4 counterexample: starting from a registry with one process, one timer
and the ghost CancellationFlag unset, cleanup empties both sets but leaves
the flag unset — the claim that the flag is true after every cleanup is
false, because scanner.cjs has no cancellation flag to set. -/
theorem claim4_counterexample :
    ¬((cleanup ⟨[1], [2], false⟩).activeProcesses = [] ∧
      (cleanup ⟨[1], [2], false⟩).activeIntervals = [] ∧
      (cleanup ⟨[1], [2], false⟩).cancellationFlag = true) := by
  decide

/-- C4 amended: after any cleanup() both registry sets are empty; no
process-wide CancellationFlag exists in the code, so no flag becomes true —
the ghost flag is simply left unchanged. -/
theorem claim4_cleanup_drains :
    ∀ s : RegistryState,
      (cleanup s).activeProcesses = [] ∧
      (cleanup s).activeIntervals = [] ∧
      (cleanup s).cancellationFlag = s.cancellationFlag := by
  intro s
  exact ⟨rfl, rfl, rfl⟩

/-- C5 counterexample: with a dismissal command taking 120 milliseconds, at
time 150 the three processes spawned by the 50 millisecond fixed-period
interval at times 50, 100 and 150 are all in flight — the suppressor is not
self-rescheduling and the number of in-flight dismissal processes exceeds
one. -/
theorem claim5_counterexample :
    inFlightDismissals 120 3 150 = 3 ∧ ¬(inFlightDismissals 120 3 150 ≤ 1) := by
  decide

/-- C5 amended: monitorPopup is a fixed-period 50 millisecond interval, not a
self-rescheduling one-shot timer: each tick spawns a dismissal process
without waiting for the previous OS call to return, so under slow dismissal
the pile-up is unbounded — with a dismissal duration of 50 times n
milliseconds, after n ticks all n spawned processes are in flight at once. -/
theorem claim5_interval_pileup :
    ∀ n : Nat,
      inFlightDismissals (popupTickPeriod * n) n (popupTickPeriod * n) = n := by
  intro n
  unfold inFlightDismissals suppressorSpawnTimes popupTickPeriod
  rw [List.filter_map, List.length_map]
  have hall : ∀ k ∈ List.range n,
      ((fun s => s ≤ 50 * n && 50 * n < s + 50 * n) ∘ (fun k => (k + 1) * 50)) k = true := by
    intro k hk
    rw [List.mem_range] at hk
    simp only [Function.comp_apply, Bool.and_eq_true, decide_eq_true_eq]
    omega
  rw [List.filter_eq_self.mpr hall, List.length_range]

/-- C6: when the connected-device probe command errors (its callback then
parses an empty stdout), getScanners hides every candidate from both passes
rather than accepting them all: getConnectedDevices ignores the error
argument and resolves an empty list, which isConnected treats as zero
devices, so the permissive null branch the in-code comment describes is
unreachable.  This exhibits the divergence underlying the code_bug verdict
for the claimed probe-failure permissiveness. -/
theorem claim6_probe_failure_hides_all :
    ∀ twainOut wiaOut : JStr,
      getScanners true true [] ⟨false, twainOut, []⟩ ⟨false, wiaOut, []⟩ = [] := by
  intro t w
  have hc : getConnectedDevices true [] = [] := rfl
  have hbody : getScanners true true [] ⟨false, t, []⟩ ⟨false, w, []⟩ =
      (keptNames (getConnectedDevices true []) w).foldl wiaAdd
        ((keptNames (getConnectedDevices true []) t).map
          (fun n => ⟨str "twain:" ++ n, n⟩)) := rfl
  rw [hbody, hc, keptNames_nil, keptNames_nil]
  rfl

/-- C7 counterexample: the TWAIN pass performs no deduplication of its own,
so when the TWAIN listdevices output repeats a connected device name, the
merged list contains two entries with identical normalized names, refuting
the claim for all transport outputs. -/
theorem claim7_counterexample :
    ¬((getScanners true false (str "AB") ⟨false, str "AB\nAB", []⟩
        ⟨false, str "", []⟩).Pairwise
      (fun a b => jsToLower a.name ≠ jsToLower b.name)) := by
  decide

/-- C7 amended: provided the names kept from the TWAIN pass are pairwise
distinct after case normalization (the TWAIN pass itself deduplicates
nothing), the merged list contains no two entries with identical normalized
names, and no WIA-pass entry that is the generic manufacturer-Scanner form
appears after an entry of the same manufacturer carrying a model number —
the WIA pass prefers the already-kept model-numbered entry. -/
theorem claim7_dedup :
    ∀ (naps2 probeErr : Bool) (probeOut : JStr) (twain wia : ExecResult),
      (keptNames (getConnectedDevices probeErr probeOut) twain.stdout).Pairwise
        (fun a b => jsToLower a ≠ jsToLower b) →
      (getScanners naps2 probeErr probeOut twain wia).Pairwise mergedOk := by
  intro naps2 probeErr probeOut twain wia h
  cases naps2 with
  | false => exact List.Pairwise.nil
  | true =>
    have hbody : getScanners true probeErr probeOut twain wia =
        (if wia.error then
          (if twain.error then []
           else (keptNames (getConnectedDevices probeErr probeOut) twain.stdout).map
             (fun n => ⟨str "twain:" ++ n, n⟩))
         else
          (keptNames (getConnectedDevices probeErr probeOut) wia.stdout).foldl wiaAdd
            (if twain.error then []
             else (keptNames (getConnectedDevices probeErr probeOut) twain.stdout).map
               (fun n => ⟨str "twain:" ++ n, n⟩))) := by
      unfold getScanners
      split
      · rename_i hfalse
        exact absurd hfalse (by decide)
      · rfl
    rw [hbody]
    have hT : (if twain.error then []
        else (keptNames (getConnectedDevices probeErr probeOut) twain.stdout).map
          (fun n => (⟨str "twain:" ++ n, n⟩ : Scanner))).Pairwise mergedOk := by
      split
      · exact List.Pairwise.nil
      · exact twain_entries_pairwise h
    split
    · exact hT
    · exact foldl_wiaAdd_pairwise _ _ hT

/-- C7 witness: concrete transport outputs where the WIA pass would repeat
the TWAIN name; the merged list satisfies the pairwise dedup relation. -/
theorem claim7_witness :
    ((keptNames (getConnectedDevices false (str "AB"))
        (ExecResult.mk false (str "AB") []).stdout).Pairwise
      (fun a b => jsToLower a ≠ jsToLower b)) ∧
    (getScanners true false (str "AB") ⟨false, str "AB", []⟩
        ⟨false, str "AB", []⟩).Pairwise mergedOk :=
  ⟨by decide,
   claim7_dedup true false (str "AB") ⟨false, str "AB", []⟩ ⟨false, str "AB", []⟩
     (by decide)⟩

/-- C8 counterexample: a session whose tool run produced two matching files,
of which the first fails to read, succeeds with a single buffer — a strict
subset of the produced pages is returned as success, because the per-file
read failure is caught, logged and skipped (scanner.cjs lines 263-265). -/
theorem claim8_counterexample :
    (matchedFiles sessPartial).length = 2 ∧
    executeScanSession sessPartial = Except.ok [str "B"] ∧
    ([str "B"] : List JStr).length < (matchedFiles sessPartial).length :=
  ⟨by decide, rfl, by decide⟩

/-- C8 amended: a successful attempt returns one buffer for every matched
file whose read succeeds; when every matched file reads successfully the
attempt returns all pages, but a read failure silently drops that page, so
with at least one matched file the attempt can succeed with a strict subset.
This theorem proves the all-reads-succeed direction. -/
theorem claim8_all_pages_when_reads_succeed :
    ∀ env : SessionEnv,
      (∀ f ∈ sortLex (matchedFiles env), (env.readFile f).isSome = true) →
      matchedFiles env ≠ [] →
      ∃ imgs, executeScanSession env = Except.ok imgs ∧
        imgs.length = (matchedFiles env).length := by
  intro env hreads hne
  have hlen : (sortLex (matchedFiles env)).length = (matchedFiles env).length :=
    (sortLex_perm (matchedFiles env)).length_eq
  have hpos : (sortLex (matchedFiles env)).length ≠ 0 := by
    rw [hlen]
    exact fun h0 => hne (List.length_eq_zero.mp h0)
  refine ⟨(sortLex (matchedFiles env)).filterMap env.readFile, ?_, ?_⟩
  · unfold executeScanSession
    rw [if_neg hpos]
  · rw [length_filterMap_of_isSome hreads, hlen]

/-- C8 witness: in the concrete session with two readable files, the attempt
succeeds with exactly as many buffers as matched files. -/
theorem claim8_witness :
    (∀ f ∈ sortLex (matchedFiles sessOkTwo), (sessOkTwo.readFile f).isSome = true) ∧
    matchedFiles sessOkTwo ≠ [] ∧
    ∃ imgs, executeScanSession sessOkTwo = Except.ok imgs ∧
      imgs.length = (matchedFiles sessOkTwo).length :=
  ⟨by decide, by decide,
   claim8_all_pages_when_reads_succeed sessOkTwo (by decide) (by decide)⟩

/-- C9: any scanner id whose split yields an empty driver part or an empty
rejoined device-name part makes performScan fail with Invalid scanner ID and
spawn no attempt, and colons inside the device-name part are preserved: a
colon-free driver prefix splits off and the remainder rejoins exactly. -/
theorem claim9_invalid_id :
    (∀ (env : ScanEnv) (id res : JStr) (d : Bool) (src : JStr),
      env.naps2Exists = true →
      ((parseScannerId id).1 = [] ∨ (parseScannerId id).2 = []) →
      performScan env id res d src = ⟨Except.error (str "Invalid scanner ID"), []⟩) ∧
    (∀ dr n : JStr, ':' ∉ dr → parseScannerId (dr ++ ':' :: n) = (dr, n)) := by
  constructor
  · intro env id res d src hn hbad
    unfold performScan
    rw [hn]
    have hcond : (decide ((parseScannerId id).1 = []) ||
        decide ((parseScannerId id).2 = [])) = true := by
      rcases hbad with hb | hb <;> simp [hb]
    simp [hcond]
  · intro dr n hdr
    unfold parseScannerId
    rw [jsSplit_append ':' dr n hdr]
    show (dr, jsJoin ':' (jsSplit ':' n)) = (dr, n)
    rw [jsJoin_jsSplit ':' n]

/-- C9 witness: the id with an empty device part is rejected without
attempts, and a two-colon id keeps the colon inside the device name. -/
theorem claim9_witness :
    performScan scanEnvFallbackOk (str "twain:") (str "mid") false (str "auto") =
      ⟨Except.error (str "Invalid scanner ID"), []⟩ ∧
    parseScannerId (str "a:b:c") = (str "a", str "b:c") :=
  ⟨claim9_invalid_id.1 scanEnvFallbackOk (str "twain:") (str "mid") false (str "auto")
     rfl (Or.inr (by decide)),
   claim9_invalid_id.2 (str "a") (str "b:c") (by decide)⟩

/-- C10: the buffers of a successful attempt are exactly the in-order reads
of the matched temp files sorted ascending by the lexicographic code-unit
order (the default Array.sort), and that sorted list is a permutation of the
matched files — pages come back in the sorted, hence page-index, order of
the file names the external tool produced. -/
theorem claim10_sorted_pages :
    ∀ (env : SessionEnv) (imgs : List JStr),
      executeScanSession env = Except.ok imgs →
      imgs = (sortLex (matchedFiles env)).filterMap env.readFile ∧
      (sortLex (matchedFiles env)).Pairwise (fun a b => lexLe a b = true) ∧
      (sortLex (matchedFiles env)).Perm (matchedFiles env) := by
  intro env imgs h
  have h2 : (if (sortLex (matchedFiles env)).length = 0 then
      (Except.error (jsOr env.stderr (jsOr env.stdout (str "No images scanned"))) :
        Except JStr (List JStr))
    else Except.ok ((sortLex (matchedFiles env)).filterMap env.readFile)) =
      Except.ok imgs := h
  split at h2
  · exact absurd h2 (by simp)
  · injection h2 with h3
    exact ⟨h3.symm, sortLex_pairwise _, sortLex_perm _⟩

/-- C10 witness: the concrete session with two files listed out of order
succeeds and the consequent holds for it. -/
theorem claim10_witness :
    executeScanSession sessOkTwo = Except.ok [str "T\\p1.jpg", str "T\\p2.jpg"] ∧
    ([str "T\\p1.jpg", str "T\\p2.jpg"] =
        (sortLex (matchedFiles sessOkTwo)).filterMap sessOkTwo.readFile ∧
      (sortLex (matchedFiles sessOkTwo)).Pairwise (fun a b => lexLe a b = true) ∧
      (sortLex (matchedFiles sessOkTwo)).Perm (matchedFiles sessOkTwo)) :=
  ⟨rfl, claim10_sorted_pages sessOkTwo [str "T\\p1.jpg", str "T\\p2.jpg"] rfl⟩
